import Mathlib

/-!
Verification development for the University Summer Programs Scraper
repository (src/database_handler.py and src/main.py).

Shallow embedding conventions:
* A Python dict holding record data is modelled as an association list
  `Dict := List (String × JVal)` with insertion order preserved; `dget`,
  `dgetD` and `dset` model `d[k]` lookup, `d.get(k, default)` and in-place
  key assignment (`d[k] = v` replaces the binding in place when the key is
  present, otherwise appends it, as CPython dicts do).
* Field values are modelled as scalar JSON values (`JVal`): strings,
  integers, booleans and `None`.  Every value the pipeline itself writes
  into a record is a string or an integer, and collections originate from
  `json.load`, so nested containers never matter for the claims below.
* All `datetime.now().isoformat()` calls inside one merge are modelled by
  a single opaque timestamp parameter `now : String`.
* `add_programs_to_database` in the source obtains the collection through
  `load_database()`; per the spec contract
  `merge(existingCollection, newRecords, sourceUrl)` the collection is an
  explicit parameter here.
* Python raises `TypeError` when `uni.get('programs_count', 0) + len(programs)`
  is applied to a non-numeric stored value; the merge therefore returns
  `Option Collection`, `none` modelling the raised exception.
* Collections are value-semantic here.  In the program every collection
  handed to the merge comes from `json.load`, which never produces aliased
  sub-objects, so value semantics is faithful on all reachable inputs.
-/

/-- Scalar JSON value stored in a record field (Python `str`, `int`, `bool`,
`None`). -/
inductive JVal where
  | str (s : String)
  | int (n : Int)
  | bool (b : Bool)
  | null
deriving DecidableEq, Repr

/-- A Python dict with scalar values: insertion-ordered association list. -/
abbrev Dict := List (String × JVal)

/-- `d[k]` / `d.get(k)`: first (unique) binding of `k`. -/
def dget : Dict → String → Option JVal
  | [], _ => none
  | (k', v') :: rest, k => if k' = k then some v' else dget rest k

/-- Python `d.get(k, default)`. -/
def dgetD (d : Dict) (k : String) (v : JVal) : JVal :=
  (dget d k).getD v

/-- Python `d[k] = v`: replace the binding in place when present, else
append it (CPython dict update semantics). -/
def dset : Dict → String → JVal → Dict
  | [], k, v => [(k, v)]
  | (k', v') :: rest, k, v =>
      if k' = k then (k, v) :: rest else (k', v') :: dset rest k v

/-- Python `str()` applied to a scalar value inside an f-string. -/
def pyStr : JVal → String
  | JVal.str s => s
  | JVal.int n => toString n
  | JVal.bool b => if b then "True" else "False"
  | JVal.null => "None"

/-- Python `x + k` for a stored value `x` and `k = len(programs)`:
integers (and booleans, which are ints in Python) add; any other stored
value raises `TypeError`, modelled as `none`. -/
def pyAddLen : JVal → Nat → Option JVal
  | JVal.int n, k => some (JVal.int (n + k))
  | JVal.bool b, k => some (JVal.int ((if b then (1 : Int) else 0) + k))
  | _, _ => none

/-- The root persisted structure (src/database_handler.py, the literal at
lines 20-23 / 26-29 fixes the four fields). -/
structure Collection where
  programs : List Dict
  universities : List Dict
  last_updated : JVal
  total_programs : Int
deriving DecidableEq, Repr

/-- The empty collection literal of `load_database`
(src/database_handler.py lines 20-23). -/
def emptyCollection : Collection :=
  { programs := [], universities := [], last_updated := JVal.null,
    total_programs := 0 }

/-!
String operations, modelled structurally over `List Char` so that every
definition evaluates inside the kernel (Python `str` indexes by code
point, as `List Char` does).
-/

/-- Python `s.replace(pat, repl)` for a non-empty pattern: replace every
occurrence, left to right, without rescanning the replacement.  The `Nat`
argument is fuel, one unit per consumed input character, so
`fuel = s.length` always suffices and the `0` branch is unreachable
then. -/
def replaceAllAux (pat repl : List Char) : Nat → List Char → List Char
  | _, [] => []
  | 0, s => s
  | fuel + 1, c :: cs =>
      if pat.isPrefixOf (c :: cs) then
        repl ++ replaceAllAux pat repl fuel (List.drop (pat.length - 1) cs)
      else c :: replaceAllAux pat repl fuel cs

/-- Python `s.replace(pat, repl)` (non-empty `pat`). -/
def pyReplace (s pat repl : String) : String :=
  String.mk (replaceAllAux pat.data repl.data s.data.length s.data)

/-- Python `s.split('/')[0]`: the characters before the first `/` (the
whole string when there is none). -/
def upToSlash : List Char → List Char
  | [] => []
  | c :: cs => if c = '/' then [] else c :: upToSlash cs

/-- Python `s.startswith(p)`. -/
def pyStartsWith (s p : String) : Bool :=
  p.data.isPrefixOf s.data

/-- Python `s.endswith(p)`. -/
def pyEndsWith (s p : String) : Bool :=
  p.data.isSuffixOf s.data

/-- Python `s.strip()` (whitespace here: space, tab, CR, LF; the claims
never involve more exotic whitespace). -/
def pyStrip (s : String) : String :=
  String.mk
    (((s.data.dropWhile Char.isWhitespace).reverse.dropWhile
      Char.isWhitespace).reverse)

/-- Python `s[a:-b]` for `a b : Nat`: the characters from index `a` up to
`len - b` (empty when the bounds cross). -/
def pySliceDrop (s : String) (a b : Nat) : String :=
  String.mk (List.take (s.data.length - a - b) (List.drop a s.data))

/-- Python `s[a:]`. -/
def pyDrop (s : String) (a : Nat) : String :=
  String.mk (List.drop a s.data)

/-- src/database_handler.py line 49:
`university_url.replace('https://', '').replace('http://', '').split('/')[0]`.
Python `str.replace` removes every occurrence; `split('/')[0]` is the part
before the first `/`. -/
def extract_university_name (url : String) : String :=
  String.mk
    (upToSlash ((pyReplace (pyReplace url "https://" "") "http://" "").data))

/-- src/database_handler.py lines 71-78, body of the per-record loop:
`program.copy()` followed by the four key assignments, the id using the
original record's `name` (default `'unknown'`) and the length of the
accumulating programs list before this record is appended. -/
def tagProgram (uniName url now : String) (idx : Nat) (p : Dict) : Dict :=
  dset (dset (dset (dset p "university" (JVal.str uniName))
        "source_url" (JVal.str url))
      "added_at" (JVal.str now))
    "id"
    (JVal.str (uniName ++ "_" ++ pyStr (dgetD p "name" (JVal.str "unknown"))
      ++ "_" ++ toString idx))

/-- src/database_handler.py lines 70-78: the `for program in programs`
loop, appending each tagged copy to `database['programs']`. -/
def add_programs_loop (uniName url now : String) :
    List Dict → List Dict → List Dict
  | acc, [] => acc
  | acc, p :: ps =>
      add_programs_loop uniName url now
        (acc ++ [tagProgram uniName url now acc.length p]) ps

/-- src/database_handler.py lines 56-61: the dict literal appended for a
previously unseen URL. -/
def mkUniversityInfo (name url now : String) (count : Nat) : Dict :=
  [("name", JVal.str name), ("url", JVal.str url),
   ("scraped_at", JVal.str now), ("programs_count", JVal.int count)]

/-- src/database_handler.py lines 65-68: the `for uni in database['universities']`
loop of the `else` branch; every entry whose `url` equals `university_url`
(`uni.get('url') == university_url`, `None` default) gets `scraped_at`
overwritten and `programs_count` incremented; a non-numeric stored count
raises (`none`). -/
def updateUnis (url now : String) (k : Nat) : List Dict → Option (List Dict)
  | [] => some []
  | u :: rest =>
      if dget u "url" = some (JVal.str url) then
        match pyAddLen (dgetD u "programs_count" (JVal.int 0)) k with
        | some v =>
            (updateUnis url now k rest).map
              (fun rest' =>
                dset (dset u "scraped_at" (JVal.str now)) "programs_count" v
                  :: rest')
        | none => none
      else
        (updateUnis url now k rest).map (fun rest' => u :: rest')

/-- src/database_handler.py lines 51-68: the membership test
`university_url not in existing_urls` with
`existing_urls = [uni.get('url', '') for uni in database.get('universities', [])]`,
appending a fresh entry for a new URL and updating matching entries
otherwise. -/
def mergedUniversities (db : Collection) (programs : List Dict)
    (university_url now : String) : Option (List Dict) :=
  if JVal.str university_url ∈
      db.universities.map (fun u => dgetD u "url" (JVal.str "")) then
    updateUnis university_url now programs.length db.universities
  else
    some (db.universities ++
      [mkUniversityInfo (extract_university_name university_url)
        university_url now programs.length])

/-- src/database_handler.py lines 44-84, `add_programs_to_database`:
update the universities, append the tagged records, set `last_updated`
and recompute `total_programs` as `len(database['programs'])`. -/
def add_programs_to_database (db : Collection) (programs : List Dict)
    (university_url now : String) : Option Collection :=
  (mergedUniversities db programs university_url now).map (fun unis =>
    let progs :=
      add_programs_loop (extract_university_name university_url)
        university_url now db.programs programs
    { programs := progs, universities := unis,
      last_updated := JVal.str now,
      total_programs := (progs.length : Int) })

/-!
Object-identity model of the per-record loop (src/database_handler.py
lines 70-78), used to state that the merge never mutates the caller's
record dicts.  Dict objects live in a store (a list indexed by allocation
address); the batch and `database['programs']` hold addresses.  Each
iteration dereferences the batch element, builds `program.copy()` with
the four provenance assignments applied to the copy (`tagProgram`),
allocates it at a fresh address, and appends that address to the
database's program list.  A hypothetical implementation that skipped
`program.copy()` would instead overwrite the store at the batch address.
-/

/-- Store-level rendering of the loop at src/database_handler.py
lines 70-78: `store` is the object store, `dbProgs` the addresses held by
`database['programs']`, the third list the addresses held by the input
batch. -/
def add_programs_loop_store (uniName url now : String) :
    List Dict → List Nat → List Nat → List Dict × List Nat
  | store, dbProgs, [] => (store, dbProgs)
  | store, dbProgs, a :: rest =>
      add_programs_loop_store uniName url now
        (store ++ [tagProgram uniName url now dbProgs.length (store.getD a [])])
        (dbProgs ++ [store.length]) rest

/-!
Model of src/main.py relevant to the Program Extractor claims.
JSON parsing itself (`json.loads`) is external; it is modelled by an
abstract parameter `parse : String → Option Json` (`none` = the call
raises `json.JSONDecodeError`).
-/

/-- Parsed JSON value, as produced by `json.load` / `json.loads`
(numeric values modelled as integers; no claim involves non-integral
numbers). -/
inductive Json where
  | null
  | bool (b : Bool)
  | num (n : Int)
  | str (s : String)
  | arr (xs : List Json)
  | obj (fields : List (String × Json))

/-- src/main.py lines 132-137: strip surrounding whitespace, then
`result[7:-3]` when the text starts with a json-tagged fence and
`result[3:-3]` when it merely starts with three backticks. -/
def stripFences (raw : String) : String :=
  let result := pyStrip raw
  if pyStartsWith result "```json" then pySliceDrop result 7 3
  else if pyStartsWith result "```" then pySliceDrop result 3 3
  else result

/-- src/main.py lines 139-146: the return value of the parse stage of
`extract_programs_with_openai`, paired with whether the
"Failed to parse AI response as JSON" error path ran (`st.error` +
`st.code`).  A parsed non-list is coerced to `[]`; a parse failure also
returns `[]`. -/
def extract_programs_result (parse : String → Option Json) (raw : String) :
    List Json × Bool :=
  match parse (stripFences raw) with
  | some (Json.arr xs) => (xs, false)
  | some _ => ([], false)
  | none => ([], true)

/-!  Model of `load_database` (src/database_handler.py lines 10-29). -/

/-- Outcome of touching the storage path: the file is absent, present but
`open`/`json.load` raises, or present and parsed to a JSON value. -/
inductive FileRead where
  | noFile
  | parseFail
  | ok (v : Json)

/-- The empty-collection literal of src/database_handler.py
lines 20-23 / 26-29, as the JSON object `load_database` returns. -/
def emptyDatabaseJson : Json :=
  Json.obj [("programs", Json.arr []), ("universities", Json.arr []),
            ("last_updated", Json.null), ("total_programs", Json.num 0)]

/-- src/database_handler.py lines 10-29: a missing file and a file whose
load raises both yield the empty-collection literal; a successful load
returns the parsed data unchanged. -/
def load_database : FileRead → Json
  | FileRead.noFile => emptyDatabaseJson
  | FileRead.parseFail => emptyDatabaseJson
  | FileRead.ok v => v

/-!  Definitions written from the spec's words, for comparison. -/

/-- Modelled from the spec (section 4.4 step 1 and claim C6): the display
name obtained by stripping a LEADING `http://` or `https://` from the URL
and truncating at the first `/` of the remainder. -/
def display_name_spec_leading (url : String) : String :=
  let t :=
    if pyStartsWith url "http://" then pyDrop url 7
    else if pyStartsWith url "https://" then pyDrop url 8
    else url
  String.mk (upToSlash t.data)

/-- What the code actually computes (amended C6): every occurrence of
`https://` removed, then every occurrence of `http://` removed, then the
part before the first `/`. -/
def display_name_replace_all (url : String) : String :=
  String.mk
    (upToSlash ((pyReplace (pyReplace url "https://" "") "http://" "").data))

/-- Modelled from the spec (claim C8): a trimmed completion text is
"wrapped in a markdown code fence" when it both starts and ends with
three backticks (long enough for the two fences to be distinct). -/
def fence_wrapped (t : String) : Bool :=
  pyStartsWith t "```" && pyEndsWith t "```" && decide (6 ≤ t.data.length)

/-- Amended response handling (amended C8): after trimming, exactly a
leading-fence test fires — `7` leading and `3` trailing characters are
removed for a `json`-tagged fence, `3` and `3` for a bare fence — whether
or not the text actually ends with a closing fence. -/
def stripFencesAmendedSpec (raw : String) : String :=
  let t := pyStrip raw
  if pyStartsWith t "```json" then pySliceDrop t 7 3
  else if pyStartsWith t "```" then pySliceDrop t 3 3
  else t

/-- The in-place rewrite `updateUnis` performs on one entry, as a pure
map (defined only on entries for which the Python addition succeeds; the
`getD` branch is never reached under a successful merge). -/
def updatedUni (url now : String) (k : Nat) (u : Dict) : Dict :=
  if dget u "url" = some (JVal.str url) then
    dset (dset u "scraped_at" (JVal.str now)) "programs_count"
      ((pyAddLen (dgetD u "programs_count" (JVal.int 0)) k).getD JVal.null)
  else u

/-!  Helper lemmas. -/

theorem dget_dset_self (d : Dict) (k : String) (v : JVal) :
    dget (dset d k v) k = some v := by
  induction d with
  | nil => simp [dset, dget]
  | cons kv rest ih =>
      by_cases h : kv.1 = k
      · simp [dset, dget, h]
      · simp [dset, dget, h, ih]

/-- The record-tagging loop, rebased: records are tagged with consecutive
indices starting at `k`. -/
def tagFrom (uniName url now : String) : Nat → List Dict → List Dict
  | _, [] => []
  | k, p :: ps =>
      tagProgram uniName url now k p :: tagFrom uniName url now (k + 1) ps

theorem add_programs_loop_eq (uniName url now : String) :
    ∀ (ps acc : List Dict),
      add_programs_loop uniName url now acc ps =
        acc ++ tagFrom uniName url now acc.length ps := by
  intro ps
  induction ps with
  | nil => intro acc; simp [add_programs_loop, tagFrom]
  | cons p ps ih =>
      intro acc
      simp [add_programs_loop, tagFrom, ih, List.append_assoc]

theorem tagFrom_length (uniName url now : String) (ps : List Dict) :
    ∀ k, (tagFrom uniName url now k ps).length = ps.length := by
  induction ps with
  | nil => intro k; simp [tagFrom]
  | cons p ps ih => intro k; simp [tagFrom, ih]

theorem tagFrom_getElem? (uniName url now : String) (ps : List Dict) :
    ∀ k i, (tagFrom uniName url now k ps)[i]? =
      (ps[i]?).map (tagProgram uniName url now (k + i)) := by
  induction ps with
  | nil => intro k i; simp [tagFrom]
  | cons p ps ih =>
      intro k i
      cases i with
      | zero => simp [tagFrom]
      | succ i =>
          have harith : k + 1 + i = k + (i + 1) := by omega
          simp [tagFrom, ih, harith]

theorem take_append_self {α : Type} (l₁ l₂ : List α) :
    (l₁ ++ l₂).take l₁.length = l₁ := by
  induction l₁ with
  | nil => simp
  | cons x xs ih => simp [ih]

theorem updateUnis_eq_map (url now : String) (k : Nat) :
    ∀ (us us' : List Dict), updateUnis url now k us = some us' →
      us' = us.map (updatedUni url now k) := by
  intro us
  induction us with
  | nil => intro us' h; simp [updateUnis] at h; subst h; simp
  | cons u rest ih =>
      intro us' h
      by_cases hu : dget u "url" = some (JVal.str url)
      · rw [updateUnis, if_pos hu] at h
        cases hv : pyAddLen (dgetD u "programs_count" (JVal.int 0)) k with
        | none => rw [hv] at h; exact absurd h (by simp)
        | some v =>
            rw [hv] at h
            rcases Option.map_eq_some'.mp h with ⟨rest', hrest, hcons⟩
            subst hcons
            simp [List.map, updatedUni, hu, hv, ih rest' hrest]
      · rw [updateUnis, if_neg hu] at h
        rcases Option.map_eq_some'.mp h with ⟨rest', hrest, hcons⟩
        subst hcons
        simp [List.map, updatedUni, hu, ih rest' hrest]

/-!  Claim theorems. -/

/-- Claim C1 (confirmed): for every collection and every batch of new
records, a successful merge yields a collection whose `total_programs`
equals the length of its `programs` sequence
(src/database_handler.py line 82 recomputes it as `len(database['programs'])`). -/
theorem merge_total_programs_invariant (db : Collection) (progs : List Dict)
    (url now : String) (res : Collection)
    (hres : add_programs_to_database db progs url now = some res) :
    res.total_programs = (res.programs.length : Int) := by
  simp only [add_programs_to_database] at hres
  rcases Option.map_eq_some'.mp hres with ⟨unis, _, rfl⟩
  rfl

/-- Witness for C1 at a concrete merge. -/
theorem merge_total_programs_invariant_witness :
    (Collection.mk [] [mkUniversityInfo "a.edu" "https://a.edu" "T" 0]
      (JVal.str "T") 0).total_programs =
    (((Collection.mk [] [mkUniversityInfo "a.edu" "https://a.edu" "T" 0]
      (JVal.str "T") 0).programs.length : Int)) :=
  merge_total_programs_invariant emptyCollection [] "https://a.edu" "T" _
    (by decide)

/-- Claim C3 (confirmed): the merge is append-only for `programs` — the
pre-existing records form an unchanged initial segment of the result, at
their original positions (src/database_handler.py lines 70-78 only
append). -/
theorem merge_append_only (db : Collection) (progs : List Dict)
    (url now : String) (res : Collection)
    (hres : add_programs_to_database db progs url now = some res) :
    res.programs.take db.programs.length = db.programs ∧
    ∃ tl, res.programs = db.programs ++ tl := by
  simp only [add_programs_to_database] at hres
  rcases Option.map_eq_some'.mp hres with ⟨unis, _, rfl⟩
  have h := add_programs_loop_eq (extract_university_name url) url now progs
    db.programs
  constructor
  · show (add_programs_loop _ _ _ db.programs progs).take _ = _
    rw [h, take_append_self]
  · exact ⟨_, h⟩

/-- Witness for C3 at a concrete merge. -/
theorem merge_append_only_witness :
    (Collection.mk [] [mkUniversityInfo "a.edu" "https://a.edu" "T" 0]
      (JVal.str "T") 0).programs.take emptyCollection.programs.length =
      emptyCollection.programs ∧
    ∃ tl, (Collection.mk [] [mkUniversityInfo "a.edu" "https://a.edu" "T" 0]
      (JVal.str "T") 0).programs = emptyCollection.programs ++ tl :=
  merge_append_only emptyCollection [] "https://a.edu" "T" _ (by decide)

/-- Claim C5 (confirmed): each appended record's `id` is
`"{derivedName}_{name or 'unknown'}_{length of programs before the
append}"` (src/database_handler.py line 76), and the concrete example of
the spec: merging `[{"name": "Code Camp"}]` into the empty collection
with source `https://mit.edu/summer` yields one record with id
`mit.edu_Code Camp_0`, one university entry with `programs_count` 1, and
`total_programs` 1. -/
theorem merge_id_assignment :
    (∀ (db : Collection) (progs : List Dict) (url now : String)
        (res : Collection),
      add_programs_to_database db progs url now = some res →
      ∀ i, i < progs.length →
        ∃ p, res.programs[db.programs.length + i]? = some p ∧
          dget p "id" = some (JVal.str
            (extract_university_name url ++ "_" ++
             pyStr (dgetD (progs.getD i []) "name" (JVal.str "unknown")) ++
             "_" ++ toString (db.programs.length + i)))) ∧
    (add_programs_to_database emptyCollection
        [[("name", JVal.str "Code Camp")]] "https://mit.edu/summer"
        "2024-01-01T00:00:00").map
      (fun c => (c.programs.length,
                 dget (c.programs.getD 0 []) "id",
                 c.universities.length,
                 dget (c.universities.getD 0 []) "programs_count",
                 c.total_programs))
      = some (1, some (JVal.str "mit.edu_Code Camp_0"), 1,
              some (JVal.int 1), 1) := by
  constructor
  · intro db progs url now res hres i hi
    simp only [add_programs_to_database] at hres
    rcases Option.map_eq_some'.mp hres with ⟨unis, _, rfl⟩
    refine ⟨tagProgram (extract_university_name url) url now
      (db.programs.length + i) (progs.getD i []), ?_, ?_⟩
    · show (add_programs_loop _ _ _ db.programs progs)[db.programs.length + i]? = _
      rw [add_programs_loop_eq, List.getElem?_append_right (by omega)]
      have hsub : db.programs.length + i - db.programs.length = i := by omega
      rw [hsub, tagFrom_getElem?, List.getElem?_eq_getElem hi]
      simp [List.getD, List.getElem?_eq_getElem hi]
    · simp only [tagProgram]
      exact dget_dset_self _ _ _
  · decide

/-- Witness for the universally quantified part of C5, at the spec's
concrete example. -/
theorem merge_id_assignment_witness :
    ∃ p, (Collection.mk
        [[("name", JVal.str "Code Camp"), ("university", JVal.str "mit.edu"),
          ("source_url", JVal.str "https://mit.edu/summer"),
          ("added_at", JVal.str "T0"),
          ("id", JVal.str "mit.edu_Code Camp_0")]]
        [mkUniversityInfo "mit.edu" "https://mit.edu/summer" "T0" 1]
        (JVal.str "T0") 1).programs[0]? = some p ∧
      dget p "id" = some (JVal.str "mit.edu_Code Camp_0") :=
  merge_id_assignment.1 emptyCollection [[("name", JVal.str "Code Camp")]]
    "https://mit.edu/summer" "T0" _ (by decide) 0 (by decide)

/-- Claim C4 counterexample: merging an empty record list into a
collection whose universities already contain an entry for the source
URL does NOT leave pre-existing University Entries unchanged — the
matching entry's `scraped_at` is overwritten with the merge time and a
missing `programs_count` is materialised as `0`
(src/database_handler.py lines 65-68 run even for an empty batch). -/
theorem merge_empty_batch_counterexample :
    (add_programs_to_database
        { programs := [],
          universities := [[("url", JVal.str "https://a.edu"),
                            ("scraped_at", JVal.str "T0")]],
          last_updated := JVal.null, total_programs := 0 }
        [] "https://a.edu" "T1").map Collection.universities
      = some [[("url", JVal.str "https://a.edu"),
               ("scraped_at", JVal.str "T1"),
               ("programs_count", JVal.int 0)]] ∧
    (add_programs_to_database
        { programs := [],
          universities := [[("url", JVal.str "https://a.edu"),
                            ("scraped_at", JVal.str "T0")]],
          last_updated := JVal.null, total_programs := 0 }
        [] "https://a.edu" "T1").map Collection.universities
      ≠ some [[("url", JVal.str "https://a.edu"),
               ("scraped_at", JVal.str "T0")]] := by
  refine ⟨by decide, by decide⟩

/-- Claim C4 amended: a successful merge of an empty record list leaves
`programs` unchanged, rewrites `total_programs` to `len(programs)`
(unchanged for valid collections) and `last_updated` to the merge time,
and changes `universities` only as follows: when the source URL has no
existing entry under the `uni.get('url', '')` membership test, exactly
one new entry with `programs_count = 0` is appended and pre-existing
entries are untouched; otherwise no entry is added or removed,
non-matching entries are untouched, and each matching entry has
`scraped_at` set to the merge time and `programs_count` replaced by its
prior numeric value (`0` when absent). -/
theorem merge_empty_batch_amended (db : Collection) (url now : String)
    (res : Collection)
    (hres : add_programs_to_database db [] url now = some res) :
    res.programs = db.programs ∧
    res.total_programs = (db.programs.length : Int) ∧
    res.last_updated = JVal.str now ∧
    (JVal.str url ∈ db.universities.map (fun u => dgetD u "url" (JVal.str "")) →
      res.universities = db.universities.map (updatedUni url now 0) ∧
      ∀ u, dget u "url" ≠ some (JVal.str url) → updatedUni url now 0 u = u) ∧
    (JVal.str url ∉ db.universities.map (fun u => dgetD u "url" (JVal.str "")) →
      res.universities = db.universities ++
        [mkUniversityInfo (extract_university_name url) url now 0]) := by
  simp only [add_programs_to_database] at hres
  rcases Option.map_eq_some'.mp hres with ⟨unis, hu, rfl⟩
  refine ⟨rfl, rfl, rfl, ?_, ?_⟩
  · intro hmem
    rw [mergedUniversities, if_pos hmem] at hu
    refine ⟨updateUnis_eq_map url now _ db.universities unis hu, ?_⟩
    intro u hne
    simp [updatedUni, hne]
  · intro hmem
    rw [mergedUniversities, if_neg hmem] at hu
    injection hu with hu
    exact hu.symm

/-- Witness for amended C4 at a concrete merge. -/
theorem merge_empty_batch_amended_witness :
    (Collection.mk [] [mkUniversityInfo "u" "u" "T" 0] (JVal.str "T") 0).programs
      = emptyCollection.programs ∧
    (Collection.mk [] [mkUniversityInfo "u" "u" "T" 0] (JVal.str "T") 0).total_programs
      = (emptyCollection.programs.length : Int) ∧
    (Collection.mk [] [mkUniversityInfo "u" "u" "T" 0] (JVal.str "T") 0).last_updated
      = JVal.str "T" ∧
    (JVal.str "u" ∈ emptyCollection.universities.map
        (fun u => dgetD u "url" (JVal.str "")) →
      (Collection.mk [] [mkUniversityInfo "u" "u" "T" 0] (JVal.str "T") 0).universities
        = emptyCollection.universities.map (updatedUni "u" "T" 0) ∧
      ∀ u, dget u "url" ≠ some (JVal.str "u") → updatedUni "u" "T" 0 u = u) ∧
    (JVal.str "u" ∉ emptyCollection.universities.map
        (fun u => dgetD u "url" (JVal.str "")) →
      (Collection.mk [] [mkUniversityInfo "u" "u" "T" 0] (JVal.str "T") 0).universities
        = emptyCollection.universities ++
          [mkUniversityInfo (extract_university_name "u") "u" "T" 0]) :=
  merge_empty_batch_amended emptyCollection "u" "T" _ (by decide)

/-- Claim C6 counterexample: the code's display name differs from
"strip a leading http:// or https:// then cut at the first /" — Python
`str.replace` removes every occurrence, not only a leading one.  On
`"ahttp://b/c"` the code produces `"ab"` while the claimed rule gives
`"ahttp:"`. -/
theorem extract_university_name_counterexample :
    extract_university_name "ahttp://b/c" = "ab" ∧
    display_name_spec_leading "ahttp://b/c" = "ahttp:" ∧
    extract_university_name "ahttp://b/c" ≠
      display_name_spec_leading "ahttp://b/c" := by
  refine ⟨by decide, by decide, by decide⟩

/-- Claim C6 amended: the display name equals the source URL with every
occurrence of `https://` removed, then every occurrence of `http://`
removed from the result, truncated at (not including) the first `/` of
the remainder. -/
theorem extract_university_name_amended :
    ∀ url, extract_university_name url = display_name_replace_all url :=
  fun _ => rfl

/-- Claim C7 (confirmed): university identity is exact string equality on
the URL.  Merging under `https://a.edu/` and then `https://a.edu`
produces two distinct University Entries, and a merge whose URL equals
(under the `uni.get('url', '')` membership test of
src/database_handler.py line 52-54) an existing entry's URL never adds
or removes an entry. -/
theorem university_identity_exact_url :
    ((add_programs_to_database emptyCollection [[("name", JVal.str "X")]]
        "https://a.edu/" "T0").bind
      (fun d => add_programs_to_database d [[("name", JVal.str "X")]]
        "https://a.edu" "T1")).map
      (fun c => c.universities.map (fun u => dget u "url"))
      = some [some (JVal.str "https://a.edu/"),
              some (JVal.str "https://a.edu")] ∧
    ∀ (db : Collection) (progs : List Dict) (url now : String)
        (res : Collection),
      JVal.str url ∈ db.universities.map (fun u => dgetD u "url" (JVal.str "")) →
      add_programs_to_database db progs url now = some res →
      res.universities.length = db.universities.length := by
  constructor
  · decide
  · intro db progs url now res hmem hres
    simp only [add_programs_to_database] at hres
    rcases Option.map_eq_some'.mp hres with ⟨unis, hu, rfl⟩
    rw [mergedUniversities, if_pos hmem] at hu
    have h := updateUnis_eq_map url now progs.length db.universities unis hu
    show unis.length = db.universities.length
    rw [h, List.length_map]

/-- Witness for the universally quantified part of C7. -/
theorem university_identity_exact_url_witness :
    (Collection.mk []
        [dset (dset [("url", JVal.str "u"), ("programs_count", JVal.int 2)]
          "scraped_at" (JVal.str "T1")) "programs_count" (JVal.int 2)]
        (JVal.str "T1") 0).universities.length =
      (Collection.mk [] [[("url", JVal.str "u"), ("programs_count", JVal.int 2)]]
        JVal.null 0).universities.length :=
  university_identity_exact_url.2
    (Collection.mk [] [[("url", JVal.str "u"), ("programs_count", JVal.int 2)]]
      JVal.null 0)
    [] "u" "T1" _ (by decide) (by decide)

/-- Claim C8 counterexample: the code removes the leading and trailing
characters whenever the trimmed text merely STARTS with a fence, not
"exactly when it is wrapped in a fence": `"```[1, 2]"` has no closing
fence, yet three leading and three trailing characters are cut. -/
theorem strip_fences_counterexample :
    fence_wrapped (pyStrip "```[1, 2]") = false ∧
    stripFences "```[1, 2]" = "[1," ∧
    stripFences "```[1, 2]" ≠ pyStrip "```[1, 2]" := by
  refine ⟨by decide, by decide, by decide⟩

/-- Claim C8 amended: the handling first strips surrounding whitespace;
then, exactly when the trimmed text STARTS with a code fence, it removes
the first 7 characters for a `json`-tagged fence (else the first 3) and
unconditionally the last 3 characters, whether or not the text ends with
a closing fence. -/
theorem strip_fences_amended :
    ∀ raw, stripFences raw = stripFencesAmendedSpec raw :=
  fun _ => rfl

/-- Claim C9 (confirmed): loading from a nonexistent storage path, or
from a file whose contents cannot be parsed, returns the canonical empty
Collection `{programs: [], universities: [], last_updated: null,
total_programs: 0}` (and, being total, raises nothing)
(src/database_handler.py lines 10-29). -/
theorem load_database_missing_or_corrupt :
    load_database FileRead.noFile =
      Json.obj [("programs", Json.arr []), ("universities", Json.arr []),
                ("last_updated", Json.null), ("total_programs", Json.num 0)] ∧
    load_database FileRead.parseFail =
      Json.obj [("programs", Json.arr []), ("universities", Json.arr []),
                ("last_updated", Json.null), ("total_programs", Json.num 0)] :=
  ⟨rfl, rfl⟩

/-- Claim C10 (confirmed): the per-record loop never mutates the
caller's batch: in the store model the loop only allocates fresh dicts
(`program.copy()` plus assignments on the copy,
src/database_handler.py lines 72-78), so the original store — in
particular every dict the input batch references — is an unchanged
initial segment of the final store. -/
theorem merge_batch_not_mutated (uniName url now : String)
    (store : List Dict) (dbProgs batch : List Nat) :
    (∃ tl, (add_programs_loop_store uniName url now store dbProgs batch).1 =
      store ++ tl) ∧
    ∀ a, a < store.length →
      ((add_programs_loop_store uniName url now store dbProgs batch).1)[a]? =
        store[a]? := by
  have key : ∀ (batch : List Nat) (store : List Dict) (dbProgs : List Nat),
      ∃ tl, (add_programs_loop_store uniName url now store dbProgs batch).1 =
        store ++ tl := by
    intro batch
    induction batch with
    | nil =>
        intro store dbProgs
        exact ⟨[], by simp [add_programs_loop_store]⟩
    | cons a rest ih =>
        intro store dbProgs
        rcases ih (store ++
            [tagProgram uniName url now dbProgs.length (store.getD a [])])
          (dbProgs ++ [store.length]) with ⟨tl, htl⟩
        exact ⟨[tagProgram uniName url now dbProgs.length (store.getD a [])]
          ++ tl, by rw [add_programs_loop_store, htl, List.append_assoc]⟩
  refine ⟨key batch store dbProgs, ?_⟩
  intro a ha
  rcases key batch store dbProgs with ⟨tl, htl⟩
  rw [htl, List.getElem?_append, if_pos ha]

/-- Witness for C10: a one-record batch leaves the referenced dict
unchanged in the store. -/
theorem merge_batch_not_mutated_witness :
    ((add_programs_loop_store "u" "s" "t" [[("name", JVal.str "X")]] []
      [0]).1)[0]? = some [("name", JVal.str "X")] :=
  (merge_batch_not_mutated "u" "s" "t" [[("name", JVal.str "X")]] [] [0]).2
    0 (by decide)

/-- Claim C2 counterexample: at the return interface, a completion text
that fails JSON parsing and a successful extraction of zero programs are
the SAME value — both paths of src/main.py lines 139-146 return `[]`. -/
theorem extract_parse_error_counterexample :
    (fun _ : String => (none : Option Json)) (stripFences "not json") = none ∧
    (extract_programs_result (fun _ => none) "not json").1 =
      (extract_programs_result (fun _ => some (Json.arr [])) "[]").1 :=
  ⟨rfl, rfl⟩

/-- Claim C2 amended: when the completion text is not valid JSON the
extractor displays the parse-error message with the raw text and returns
the empty list — the same return value as a successful extraction that
parses to `[]`; the two cases differ only in the displayed error, not at
the return interface. -/
theorem extract_parse_error_amended (parse : String → Option Json)
    (raw : String) :
    (parse (stripFences raw) = none →
      extract_programs_result parse raw = ([], true)) ∧
    (parse (stripFences raw) = some (Json.arr []) →
      extract_programs_result parse raw = ([], false)) := by
  constructor
  · intro h
    simp [extract_programs_result, h]
  · intro h
    simp [extract_programs_result, h]

/-- Witness for amended C2 at a concrete failing parse. -/
theorem extract_parse_error_amended_witness :
    extract_programs_result (fun _ => none) "not json" = ([], true) :=
  (extract_parse_error_amended (fun _ => none) "not json").1 rfl
